import Mathlib

/-!
# Timeline (include/Timeline.h): clip ordering, open/closed state, accessors

A shallow embedding of `include/Timeline.h`:

* `compare_clip_pointers` (lines 36-40), the comparison functor handed to the
  list sort of `Timeline::SortClips`;
* the inline accessors and mutators `Width`, `Height`, `FrameRate`
  (lines 94-98, 106-110, 126-130);
* the declaration `GetFrame(int) throw(ReaderClosed)` (line 104), whose dynamic
  exception specification is modelled by `exceptionSpecification`.

`Clip.h`, `FrameRate.h`, `Frame.h`, `Exceptions.h` and `Timeline.cpp` are not part
of the sources at hand.  What is needed from them is either a parameter (the type
of `Clip::Position()`, the rendering collaborators) or a definition marked
`Modelled from the spec:`.
-/

namespace openshot

/-! ## Data model -/

/-- Modelled from the spec: `Clip.h` is missing.  A clip exposes `Position()` (its start
time on the timeline) and `Layer()` (an integer stacking order).  The type `P` of a
position is a parameter; the comparison functor only uses `<=` on it.  `addr` is the
value of the `Clip*` pointer, the identity of the clip object. -/
structure Clip (P : Type) where
  addr : Nat
  Position : P
  Layer : Int
  deriving DecidableEq, Repr

/-- Comparison method for sorting clip pointers (by Position and Layer), `Timeline.h`
lines 36-40: `return lhs->Position() <= rhs->Position() && lhs->Layer() < rhs->Layer();`
The positions are compared in a linear order (for a floating-point position type: on the
values that are not NaN). -/
def compare_clip_pointers {P : Type} [LinearOrder P] (lhs rhs : Clip P) : Bool :=
  decide (lhs.Position ≤ rhs.Position) && decide (lhs.Layer < rhs.Layer)

/-- The lexicographic order on `(Position, Layer)` pairs that the data model describes:
`a` is at or before `b` when its position is lower, or the positions are equal and its
layer is not higher. -/
def lexLE {P : Type} [LinearOrder P] (a b : Clip P) : Prop :=
  a.Position < b.Position ∨ (a.Position = b.Position ∧ a.Layer ≤ b.Layer)

instance {P : Type} [LinearOrder P] (a b : Clip P) : Decidable (lexLE a b) :=
  inferInstanceAs
    (Decidable (a.Position < b.Position ∨ (a.Position = b.Position ∧ a.Layer ≤ b.Layer)))

/-- Modelled from the spec: `FrameRate.h` is missing.  The rate type "represents a rational
frames-per-second value; exposes numerator/denominator". -/
structure Framerate where
  numerator : Int
  denominator : Int
  deriving DecidableEq, Repr

/-- Modelled from the spec: `Frame.h` is missing.  An output frame is "one fully composited
unit of image + audio data at a specific timeline frame index". -/
structure Frame where
  number : Int
  image : List Nat
  audio : List Int
  deriving DecidableEq, Repr

/-- Modelled from the spec: `Exceptions.h` is missing.  The error kinds of the error
handling design: `ReaderClosed`, `InvalidClip`, `ResourceExhaustion` and a clip decode
failure; `std_bad_exception` is `std::bad_exception` of the C++ runtime. -/
inductive Exception where
  | ReaderClosed
  | InvalidClip
  | ResourceExhaustion
  | DecodeFailure
  | std_bad_exception
  deriving DecidableEq, Repr

/-- How a call of a C++ function ends: it returns a value, an exception leaves it, or the
program is ended by `std::terminate`. -/
inductive Outcome (α : Type) where
  | returned (v : α)
  | thrown (e : Exception)
  | terminated
  deriving DecidableEq, Repr

/-- What the installed `std::unexpected` handler does: the default handler calls
`std::terminate`; a handler set with `std::set_unexpected` may throw an exception. -/
inductive UnexpectedHandler where
  | terminate
  | throws (e : Exception)
  deriving DecidableEq, Repr

/-- The private data members of `Timeline` (`Timeline.h` lines 52-60) that the operations
below read or write, with `is_open`, the open/closed state of the reader.  The decode
handle bookkeeping (`open_clips`, `closing_clips`), the viewport curves and the background
colour are not represented. -/
structure Timeline (P : Type) where
  width : Int
  height : Int
  fps : Framerate
  sample_rate : Int
  channels : Int
  clips : List (Clip P)
  final_cache : List (Int × Frame)
  is_open : Bool

/-! ## The list sort behind `SortClips` -/

/-- The inner loop of the merge step while the current element of the left list is `x`
(followed by `xs`): elements of the right list are taken as long as `comp` puts them
strictly before `x`; then `x` is taken and the merge goes on (`continue_merge`) with `xs`
and what is left of the right list. -/
def list_merge_from {α : Type} (comp : α → α → Bool) (x : α) (xs : List α)
    (continue_merge : List α → List α) : List α → List α
  | [] => x :: xs
  | y :: ys =>
    if comp y x then y :: list_merge_from comp x xs continue_merge ys
    else x :: continue_merge (y :: ys)

/-- The merge step of the list sort, `x.merge(y, comp)`: the elements of `y` are merged
into `x`; an element of `y` goes first only when `comp` puts it strictly before the
current element of `x`, so equivalent elements of `x` stay ahead of those of `y`. -/
def list_merge {α : Type} (comp : α → α → Bool) : List α → List α → List α
  | [], ys => ys
  | x :: xs, ys => list_merge_from comp x xs (list_merge comp xs) ys

/-- One round of the bottom-up merge sort: the carried run is merged into the first empty
bin, every full bin met on the way being merged with the carry and emptied. -/
def sort_carry {α : Type} (comp : α → α → Bool) (carry : List α) :
    List (List α) → List (List α)
  | [] => [carry]
  | bin :: bins =>
    if bin.isEmpty then carry :: bins
    else [] :: sort_carry comp (list_merge comp bin carry) bins

/-- Modelled from the spec: `Timeline.cpp` is missing.  The stable list sort
(`std::list::sort` with a comparison functor): a bottom-up merge sort.  The elements are
taken one by one from the front into a binary counter of sorted runs, and the runs are
merged at the end, the older run always on the left of the merge. -/
def list_sort {α : Type} (comp : α → α → Bool) (l : List α) : List α :=
  (l.foldl (fun bins x => sort_carry comp [x] bins) []).foldl
    (fun acc bin => list_merge comp bin acc) []

/-! ## Operations of `Timeline` -/

namespace Timeline

/-- Modelled from the spec: `Timeline.cpp` is missing.  The constructor
`Timeline(width, height, fps, sample_rate, channels)`: the five values are stored, there
are no clips and no cached frames, and the timeline has not been opened. -/
def new {P : Type} (width height : Int) (fps : Framerate) (sample_rate channels : Int) :
    Timeline P :=
  { width := width, height := height, fps := fps, sample_rate := sample_rate,
    channels := channels, clips := [], final_cache := [], is_open := false }

/-- Accessor `int Width() { return width; }` (line 127). -/
def Width {P : Type} (t : Timeline P) : Int := t.width

/-- Mutator `void Width(int new_width) { width = new_width; }` (line 130). -/
def Width_set {P : Type} (t : Timeline P) (new_width : Int) : Timeline P :=
  { t with width := new_width }

/-- Accessor `int Height() { return height; }` (line 107). -/
def Height {P : Type} (t : Timeline P) : Int := t.height

/-- Mutator `void Height(int new_height) { height = new_height; }` (line 110). -/
def Height_set {P : Type} (t : Timeline P) (new_height : Int) : Timeline P :=
  { t with height := new_height }

/-- Accessor `Framerate FrameRate() { return fps; };` (line 95). -/
def FrameRate {P : Type} (t : Timeline P) : Framerate := t.fps

/-- Mutator `void FrameRate(Framerate new_fps) { fps = new_fps; };` (line 98). -/
def FrameRate_set {P : Type} (t : Timeline P) (new_fps : Framerate) : Timeline P :=
  { t with fps := new_fps }

/-- Modelled from the spec: `Timeline.cpp` is missing.  `SortClips()` re-orders the clip
sequence with the stable list sort driven by `compare_clip_pointers`. -/
def SortClips {P : Type} [LinearOrder P] (t : Timeline P) : Timeline P :=
  { t with clips := list_sort compare_clip_pointers t.clips }

/-- Modelled from the spec: `Timeline.cpp` is missing.  `AddClip(clip)` "inserts a clip
reference", is a no-op "if the same clip reference is already present", and "triggers
re-sort". -/
def AddClip {P : Type} [LinearOrder P] (t : Timeline P) (clip : Clip P) : Timeline P :=
  if t.clips.any (fun c => c.addr == clip.addr) then t
  else SortClips { t with clips := t.clips ++ [clip] }

/-- Modelled from the spec: `Timeline.cpp` is missing.  `RemoveClip(clip)` "removes the
reference if present; does not throw if absent". -/
def RemoveClip {P : Type} (t : Timeline P) (clip : Clip P) : Timeline P :=
  { t with clips := t.clips.filter (fun c => c.addr != clip.addr) }

/-- Modelled from the spec: `Timeline.cpp` is missing.  `Open()` "transitions the timeline
itself into a consuming-resources state; must be idempotent if already open". -/
def Open {P : Type} (t : Timeline P) : Timeline P :=
  { t with is_open := true }

/-- Modelled from the spec: `Timeline.cpp` is missing.  `Close()` releases the timeline's
resources and is safe to call several times; afterwards the timeline is not open. -/
def Close {P : Type} (t : Timeline P) : Timeline P :=
  { t with is_open := false }

end Timeline

/-- The dynamic exception specification `throw(allowed...)` of a function declaration,
applied to the way the function body ends.  A returned value and an allowed exception pass.
Any other exception never leaves the function: `std::unexpected` is called instead.  Its
default handler terminates the program; a handler that throws an allowed exception makes
that exception leave the function; one that throws a disallowed exception ends in
`std::bad_exception` when the specification lists it and in `std::terminate` otherwise. -/
def exceptionSpecification {α : Type} (allowed : List Exception) (handler : UnexpectedHandler) :
    Outcome α → Outcome α
  | .returned v => .returned v
  | .terminated => .terminated
  | .thrown e =>
    if e ∈ allowed then .thrown e
    else
      match handler with
      | .terminate => .terminated
      | .throws e2 =>
        if e2 ∈ allowed then .thrown e2
        else if Exception.std_bad_exception ∈ allowed then .thrown Exception.std_bad_exception
        else .terminated

/-- Modelled from the spec: `Timeline.cpp` is missing.  The body of `GetFrame`: it "fails
with a reader closed error if the timeline has not been opened (or has been closed)"; "on
cache hit, returns the cached output frame"; on a miss the collaborators (`render`: time
reconciler, clip decoding, layer compositor) produce the frame or fail, and the result is
stored "keyed by `requested_frame`" and returned. -/
def GetFrame_body {P : Type} (render : Timeline P → Int → Except Exception Frame)
    (t : Timeline P) (requested_frame : Int) : Outcome Frame × Timeline P :=
  if t.is_open = false then (.thrown .ReaderClosed, t)
  else
    match t.final_cache.lookup requested_frame with
    | some frame => (.returned frame, t)
    | none =>
      match render t requested_frame with
      | .error e => (.thrown e, t)
      | .ok frame =>
        (.returned frame, { t with final_cache := (requested_frame, frame) :: t.final_cache })

/-- Declaration `tr1::shared_ptr<Frame> GetFrame(int requested_frame) throw(ReaderClosed);`
(line 104): the body, defined in `Timeline.cpp`, is the parameter `body`; the declaration puts it under
the exception specification that lists `ReaderClosed` alone. -/
def GetFrame {P : Type} (body : Timeline P → Int → Outcome Frame × Timeline P)
    (handler : UnexpectedHandler) (t : Timeline P) (requested_frame : Int) :
    Outcome Frame × Timeline P :=
  (exceptionSpecification [Exception.ReaderClosed] handler (body t requested_frame).1,
    (body t requested_frame).2)

/-- A call of one public member function of `Timeline`. -/
inductive Op (P : Type) where
  | Open
  | Close
  | AddClip (clip : Clip P)
  | RemoveClip (clip : Clip P)
  | SortClips
  | Width (new_width : Int)
  | Height (new_height : Int)
  | FrameRate (new_fps : Framerate)
  | GetFrame (requested_frame : Int)

/-- The timeline after one call; `none` when the call ended the program. -/
def step {P : Type} [LinearOrder P] (render : Timeline P → Int → Except Exception Frame)
    (handler : UnexpectedHandler) (t : Timeline P) : Op P → Option (Timeline P)
  | .Open => some t.Open
  | .Close => some t.Close
  | .AddClip clip => some (t.AddClip clip)
  | .RemoveClip clip => some (t.RemoveClip clip)
  | .SortClips => some t.SortClips
  | .Width v => some (t.Width_set v)
  | .Height v => some (t.Height_set v)
  | .FrameRate v => some (t.FrameRate_set v)
  | .GetFrame n =>
    match GetFrame (GetFrame_body render) handler t n with
    | (.terminated, _) => none
    | (_, t2) => some t2

/-- The timeline after a sequence of calls, made one after the other by a caller that
catches the exceptions `GetFrame` lets through. -/
def run {P : Type} [LinearOrder P] (render : Timeline P → Int → Except Exception Frame)
    (handler : UnexpectedHandler) : Timeline P → List (Op P) → Option (Timeline P)
  | t, [] => some t
  | t, op :: ops =>
    match step render handler t op with
    | none => none
    | some t2 => run render handler t2 ops

/-! ## Theorems: the comparison functor -/

/-- C1 (evaluation at the failing input): two clips on the same layer 0 with positions
`0 < 1`.  The functor answers `false` in both directions, so the clip with the lower
position is not placed before the other. -/
theorem compare_clip_pointers_same_layer_lower_position :
    ((⟨1, 0, 0⟩ : Clip Int).Position < (⟨2, 1, 0⟩ : Clip Int).Position) ∧
    compare_clip_pointers (⟨1, 0, 0⟩ : Clip Int) ⟨2, 1, 0⟩ = false ∧
    compare_clip_pointers (⟨2, 1, 0⟩ : Clip Int) ⟨1, 0, 0⟩ = false := by
  decide

/-- What the functor does answer for clips with `c1.Position < c2.Position`: it never puts
`c2` before `c1`, and it puts `c1` before `c2` exactly when `c1.Layer < c2.Layer`. -/
theorem compare_clip_pointers_lower_position {P : Type} [LinearOrder P] (c1 c2 : Clip P)
    (hpos : c1.Position < c2.Position) :
    (compare_clip_pointers c1 c2 = true ↔ c1.Layer < c2.Layer) ∧
    compare_clip_pointers c2 c1 = false := by
  refine ⟨?_, ?_⟩
  · simp [compare_clip_pointers, le_of_lt hpos]
  · simp only [compare_clip_pointers, Bool.and_eq_false_iff, decide_eq_false_iff_not]
    exact Or.inl (not_le.mpr hpos)

/-- C2: for clips with equal positions, `compare_clip_pointers c1 c2` is true exactly
when `c1.Layer < c2.Layer`; with equal layers as well it is false in both directions. -/
theorem compare_clip_pointers_equal_position {P : Type} [LinearOrder P] (c1 c2 : Clip P)
    (hpos : c1.Position = c2.Position) :
    (compare_clip_pointers c1 c2 = true ↔ c1.Layer < c2.Layer) ∧
    (c1.Layer = c2.Layer →
      compare_clip_pointers c1 c2 = false ∧ compare_clip_pointers c2 c1 = false) := by
  refine ⟨?_, ?_⟩
  · simp [compare_clip_pointers, hpos]
  · intro hlay
    simp [compare_clip_pointers, hpos, hlay]

theorem compare_clip_pointers_equal_position_witness :
    (⟨1, 5, 0⟩ : Clip Int).Position = (⟨2, 5, 3⟩ : Clip Int).Position ∧
    ((compare_clip_pointers (⟨1, 5, 0⟩ : Clip Int) ⟨2, 5, 3⟩ = true ↔
        (⟨1, 5, 0⟩ : Clip Int).Layer < (⟨2, 5, 3⟩ : Clip Int).Layer) ∧
      ((⟨1, 5, 0⟩ : Clip Int).Layer = (⟨2, 5, 3⟩ : Clip Int).Layer →
        compare_clip_pointers (⟨1, 5, 0⟩ : Clip Int) ⟨2, 5, 3⟩ = false ∧
        compare_clip_pointers (⟨2, 5, 3⟩ : Clip Int) ⟨1, 5, 0⟩ = false)) :=
  ⟨rfl, compare_clip_pointers_equal_position ⟨1, 5, 0⟩ ⟨2, 5, 3⟩ rfl⟩

/-- C5: a clip with a strictly later position is never ordered before a clip with an
earlier position, whatever the layers: `c1.Position > c2.Position` gives
`compare_clip_pointers c1 c2 = false`. -/
theorem compare_clip_pointers_later_position {P : Type} [LinearOrder P] (c1 c2 : Clip P)
    (hpos : c1.Position > c2.Position) :
    compare_clip_pointers c1 c2 = false := by
  simp [compare_clip_pointers]
  intro hle
  exact absurd hpos (not_lt.mpr hle)

theorem compare_clip_pointers_later_position_witness :
    (⟨1, 7, 0⟩ : Clip Int).Position > (⟨2, 3, 9⟩ : Clip Int).Position ∧
    compare_clip_pointers (⟨1, 7, 0⟩ : Clip Int) ⟨2, 3, 9⟩ = false :=
  ⟨by decide, compare_clip_pointers_later_position ⟨1, 7, 0⟩ ⟨2, 3, 9⟩ (by decide)⟩

/-- C9: `compare_clip_pointers` is a strict partial order on clips: irreflexive,
asymmetric and transitive. -/
theorem compare_clip_pointers_strict_order {P : Type} [LinearOrder P] :
    (∀ a : Clip P, compare_clip_pointers a a = false) ∧
    (∀ a b : Clip P, compare_clip_pointers a b = true → compare_clip_pointers b a = false) ∧
    (∀ a b c : Clip P, compare_clip_pointers a b = true → compare_clip_pointers b c = true →
      compare_clip_pointers a c = true) := by
  refine ⟨?_, ?_, ?_⟩
  · intro a
    simp [compare_clip_pointers]
  · intro a b hab
    simp only [compare_clip_pointers, Bool.and_eq_true, decide_eq_true_eq] at hab
    simp only [compare_clip_pointers, Bool.and_eq_false_iff, decide_eq_false_iff_not]
    exact Or.inr (not_lt.mpr (le_of_lt hab.2))
  · intro a b c hab hbc
    simp only [compare_clip_pointers, Bool.and_eq_true, decide_eq_true_eq] at hab hbc ⊢
    exact ⟨le_trans hab.1 hbc.1, lt_trans hab.2 hbc.2⟩

theorem compare_clip_pointers_strict_order_witness :
    compare_clip_pointers (⟨1, 0, 0⟩ : Clip Int) ⟨2, 1, 1⟩ = true ∧
    compare_clip_pointers (⟨2, 1, 1⟩ : Clip Int) ⟨3, 2, 2⟩ = true ∧
    compare_clip_pointers (⟨1, 0, 0⟩ : Clip Int) ⟨3, 2, 2⟩ = true ∧
    compare_clip_pointers (⟨2, 1, 1⟩ : Clip Int) ⟨1, 0, 0⟩ = false ∧
    compare_clip_pointers (⟨1, 0, 0⟩ : Clip Int) ⟨1, 0, 0⟩ = false :=
  ⟨by decide, by decide,
    (@compare_clip_pointers_strict_order Int _).2.2 ⟨1, 0, 0⟩ ⟨2, 1, 1⟩ ⟨3, 2, 2⟩
      (by decide) (by decide),
    (@compare_clip_pointers_strict_order Int _).2.1 ⟨1, 0, 0⟩ ⟨2, 1, 1⟩ (by decide),
    (@compare_clip_pointers_strict_order Int _).1 ⟨1, 0, 0⟩⟩

/-- C10 (evaluation at the failing input): `a = (0, layer 0)`, `b = (2, layer 0)`,
`c = (1, layer 1)`.  `a` and `b` are incomparable, `b` and `c` are incomparable, yet
`compare_clip_pointers a c` is true: incomparability is not transitive. -/
theorem compare_clip_pointers_incomparability_not_transitive :
    compare_clip_pointers (⟨1, 0, 0⟩ : Clip Int) ⟨2, 2, 0⟩ = false ∧
    compare_clip_pointers (⟨2, 2, 0⟩ : Clip Int) ⟨1, 0, 0⟩ = false ∧
    compare_clip_pointers (⟨2, 2, 0⟩ : Clip Int) ⟨3, 1, 1⟩ = false ∧
    compare_clip_pointers (⟨3, 1, 1⟩ : Clip Int) ⟨2, 2, 0⟩ = false ∧
    compare_clip_pointers (⟨1, 0, 0⟩ : Clip Int) ⟨3, 1, 1⟩ = true := by
  decide

/-! ## Theorems: the list sort and `SortClips` -/

theorem list_merge_from_perm {α : Type} (comp : α → α → Bool) (x : α) (xs : List α)
    (continue_merge : List α → List α)
    (hrec : ∀ ys, (continue_merge ys).Perm (xs ++ ys)) (ys : List α) :
    (list_merge_from comp x xs continue_merge ys).Perm (x :: xs ++ ys) := by
  induction ys with
  | nil => simp [list_merge_from]
  | cons y ys ih =>
    unfold list_merge_from
    split
    · exact (List.Perm.cons y ih).trans (@List.perm_middle _ y (x :: xs) ys).symm
    · exact List.Perm.cons x (hrec (y :: ys))

theorem list_merge_perm {α : Type} (comp : α → α → Bool) (xs ys : List α) :
    (list_merge comp xs ys).Perm (xs ++ ys) := by
  induction xs generalizing ys with
  | nil => simp [list_merge]
  | cons x xs ih =>
    unfold list_merge
    exact list_merge_from_perm comp x xs (list_merge comp xs) ih ys

theorem sort_carry_perm {α : Type} (comp : α → α → Bool) (carry : List α)
    (bins : List (List α)) :
    (sort_carry comp carry bins).flatten.Perm (carry ++ bins.flatten) := by
  induction bins generalizing carry with
  | nil => simp [sort_carry]
  | cons bin bins ih =>
    unfold sort_carry
    split
    · rename_i hempty
      have hnil : bin = [] := List.isEmpty_iff.mp hempty
      simp [hnil]
    · simp only [List.flatten_cons, List.nil_append]
      refine (ih (list_merge comp bin carry)).trans ?_
      refine ((list_merge_perm comp bin carry).append_right bins.flatten).trans ?_
      rw [← List.append_assoc]
      exact List.Perm.append_right _ List.perm_append_comm

theorem sort_bins_perm {α : Type} (comp : α → α → Bool) (l : List α) (bins : List (List α)) :
    (l.foldl (fun bins x => sort_carry comp [x] bins) bins).flatten.Perm (bins.flatten ++ l) := by
  induction l generalizing bins with
  | nil => simp
  | cons x l ih =>
    simp only [List.foldl_cons]
    refine (ih (sort_carry comp [x] bins)).trans ?_
    refine ((sort_carry_perm comp [x] bins).append_right l).trans ?_
    simp only [List.singleton_append]
    exact (@List.perm_middle _ x bins.flatten l).symm

theorem merge_bins_perm {α : Type} (comp : α → α → Bool) (bins : List (List α)) (acc : List α) :
    (bins.foldl (fun acc bin => list_merge comp bin acc) acc).Perm (acc ++ bins.flatten) := by
  induction bins generalizing acc with
  | nil => simp
  | cons bin bins ih =>
    simp only [List.foldl_cons, List.flatten_cons]
    refine (ih (list_merge comp bin acc)).trans ?_
    rw [← List.append_assoc]
    exact List.Perm.append_right _ ((list_merge_perm comp bin acc).trans List.perm_append_comm)

/-- Whatever the comparison functor, the list sort returns a permutation of its input. -/
theorem list_sort_perm {α : Type} (comp : α → α → Bool) (l : List α) :
    (list_sort comp l).Perm l := by
  unfold list_sort
  refine (merge_bins_perm comp _ []).trans ?_
  simpa using sort_bins_perm comp l []

/-- Whatever the clip list, `SortClips` changes nothing but the order of the clips. -/
theorem SortClips_clips_perm {P : Type} [LinearOrder P] (t : Timeline P) :
    t.SortClips.clips.Perm t.clips :=
  list_sort_perm compare_clip_pointers t.clips

/-- C3 (evaluation at the failing input): a clip at position 1 and then a clip at position 0,
both on layer 0, are added to a new timeline, so the clip list holds them in that order.
`compare_clip_pointers` orders neither before the other, so `SortClips` leaves the list as
it is, and the result is not in ascending `(Position, Layer)` order: position 1 comes
before position 0. -/
theorem SortClips_same_layer_keeps_positions_unsorted :
    (((Timeline.new 640 480 ⟨24, 1⟩ 44100 2 : Timeline Int).AddClip ⟨1, 1, 0⟩).AddClip
        ⟨2, 0, 0⟩).clips = [⟨1, 1, 0⟩, ⟨2, 0, 0⟩] ∧
    (((Timeline.new 640 480 ⟨24, 1⟩ 44100 2 : Timeline Int).AddClip ⟨1, 1, 0⟩).AddClip
        ⟨2, 0, 0⟩).SortClips.clips = [⟨1, 1, 0⟩, ⟨2, 0, 0⟩] ∧
    ¬ List.Chain' lexLE
      (((Timeline.new 640 480 ⟨24, 1⟩ 44100 2 : Timeline Int).AddClip ⟨1, 1, 0⟩).AddClip
        ⟨2, 0, 0⟩).SortClips.clips := by
  have hsorted :
      (((Timeline.new 640 480 ⟨24, 1⟩ 44100 2 : Timeline Int).AddClip ⟨1, 1, 0⟩).AddClip
        ⟨2, 0, 0⟩).SortClips.clips = [⟨1, 1, 0⟩, ⟨2, 0, 0⟩] := by
    decide
  refine ⟨by decide, hsorted, ?_⟩
  rw [hsorted]
  intro hchain
  have hhead : lexLE (⟨1, 1, 0⟩ : Clip Int) ⟨2, 0, 0⟩ := List.Chain'.rel_head hchain
  revert hhead
  decide

/-- C4 (evaluation at the failing input): the same two clips, `(position 0, layer 0)` and
`(position 1, layer 0)`, are added to a new timeline in the two possible orders.  Their
`(Position, Layer)` pairs differ, yet the two sorted clip sequences differ: each keeps
its insertion order. -/
theorem SortClips_result_depends_on_insertion_order :
    ((⟨1, 0, 0⟩ : Clip Int).Position, (⟨1, 0, 0⟩ : Clip Int).Layer) ≠
      ((⟨2, 1, 0⟩ : Clip Int).Position, (⟨2, 1, 0⟩ : Clip Int).Layer) ∧
    (((Timeline.new 640 480 ⟨24, 1⟩ 44100 2 : Timeline Int).AddClip ⟨1, 0, 0⟩).AddClip
        ⟨2, 1, 0⟩).SortClips.clips = [⟨1, 0, 0⟩, ⟨2, 1, 0⟩] ∧
    (((Timeline.new 640 480 ⟨24, 1⟩ 44100 2 : Timeline Int).AddClip ⟨2, 1, 0⟩).AddClip
        ⟨1, 0, 0⟩).SortClips.clips = [⟨2, 1, 0⟩, ⟨1, 0, 0⟩] ∧
    (((Timeline.new 640 480 ⟨24, 1⟩ 44100 2 : Timeline Int).AddClip ⟨1, 0, 0⟩).AddClip
        ⟨2, 1, 0⟩).SortClips.clips ≠
      (((Timeline.new 640 480 ⟨24, 1⟩ 44100 2 : Timeline Int).AddClip ⟨2, 1, 0⟩).AddClip
        ⟨1, 0, 0⟩).SortClips.clips := by
  decide

/-! ## Theorems: accessors and mutators -/

/-- C8: each mutator is read back by its accessor: after `Width(v)` the accessor `Width()`
returns `v`, after `Height(v)` the accessor `Height()` returns `v`, and after
`FrameRate(v)` the accessor `FrameRate()` returns `v`. -/
theorem mutator_then_accessor {P : Type} (t : Timeline P) :
    (∀ v : Int, (t.Width_set v).Width = v) ∧
    (∀ v : Int, (t.Height_set v).Height = v) ∧
    (∀ v : Framerate, (t.FrameRate_set v).FrameRate = v) :=
  ⟨fun _ => rfl, fun _ => rfl, fun _ => rfl⟩

/-! ## Theorems: `GetFrame` on a timeline that is not open -/

theorem GetFrame_of_not_open {P : Type} (render : Timeline P → Int → Except Exception Frame)
    (handler : UnexpectedHandler) (t : Timeline P) (n : Int) (hclosed : t.is_open = false) :
    GetFrame (GetFrame_body render) handler t n = (Outcome.thrown Exception.ReaderClosed, t) := by
  simp [GetFrame, GetFrame_body, hclosed, exceptionSpecification]

theorem step_of_not_open {P : Type} [LinearOrder P]
    (render : Timeline P → Int → Except Exception Frame) (handler : UnexpectedHandler)
    (t : Timeline P) (op : Op P) (hclosed : t.is_open = false) (hop : op ≠ Op.Open) :
    ∃ t2, step render handler t op = some t2 ∧ t2.is_open = false := by
  cases op with
  | Open => exact absurd rfl hop
  | Close => exact ⟨_, rfl, rfl⟩
  | AddClip clip =>
    refine ⟨_, rfl, ?_⟩
    unfold Timeline.AddClip
    split
    · exact hclosed
    · exact hclosed
  | RemoveClip clip => exact ⟨_, rfl, hclosed⟩
  | SortClips => exact ⟨_, rfl, hclosed⟩
  | Width v => exact ⟨_, rfl, hclosed⟩
  | Height v => exact ⟨_, rfl, hclosed⟩
  | FrameRate v => exact ⟨_, rfl, hclosed⟩
  | GetFrame n =>
    refine ⟨t, ?_, hclosed⟩
    simp [step, GetFrame_of_not_open render handler t n hclosed]

theorem run_of_not_open {P : Type} [LinearOrder P]
    (render : Timeline P → Int → Except Exception Frame) (handler : UnexpectedHandler)
    (ops : List (Op P)) (t : Timeline P) (hclosed : t.is_open = false)
    (hops : ∀ op ∈ ops, op ≠ Op.Open) :
    ∃ t2, run render handler t ops = some t2 ∧ t2.is_open = false := by
  induction ops generalizing t with
  | nil => exact ⟨t, rfl, hclosed⟩
  | cons op ops ih =>
    obtain ⟨t1, hstep, hclosed1⟩ :=
      step_of_not_open render handler t op hclosed (hops op (List.mem_cons_self _ _))
    obtain ⟨t2, hrun, hclosed2⟩ :=
      ih t1 hclosed1 (fun o ho => hops o (List.mem_cons_of_mem _ ho))
    exact ⟨t2, by simp [run, hstep, hrun], hclosed2⟩

/-- C6: `GetFrame` fails with `ReaderClosed` whenever the timeline is not open.  After any
sequence of calls that contains no `Open()`, started either on a newly constructed timeline
or right after `Close()`, the timeline is still there and `GetFrame`, for every frame
number, throws `ReaderClosed` to its caller, returns no frame and leaves the timeline as it
was. -/
theorem GetFrame_not_open_throws_ReaderClosed {P : Type} [LinearOrder P]
    (render : Timeline P → Int → Except Exception Frame) (handler : UnexpectedHandler)
    (ops : List (Op P)) (requested_frame : Int) (hops : ∀ op ∈ ops, op ≠ Op.Open) :
    (∀ (width height : Int) (fps : Framerate) (sample_rate channels : Int),
      ∃ t, run render handler (Timeline.new width height fps sample_rate channels) ops = some t ∧
        GetFrame (GetFrame_body render) handler t requested_frame =
          (Outcome.thrown Exception.ReaderClosed, t)) ∧
    (∀ t0 : Timeline P,
      ∃ t, run render handler t0.Close ops = some t ∧
        GetFrame (GetFrame_body render) handler t requested_frame =
          (Outcome.thrown Exception.ReaderClosed, t)) := by
  refine ⟨?_, ?_⟩
  · intro width height fps sample_rate channels
    obtain ⟨t, hrun, hclosed⟩ :=
      run_of_not_open render handler ops (Timeline.new width height fps sample_rate channels)
        rfl hops
    exact ⟨t, hrun, GetFrame_of_not_open render handler t requested_frame hclosed⟩
  · intro t0
    obtain ⟨t, hrun, hclosed⟩ := run_of_not_open render handler ops t0.Close rfl hops
    exact ⟨t, hrun, GetFrame_of_not_open render handler t requested_frame hclosed⟩

theorem GetFrame_not_open_throws_ReaderClosed_witness :
    (∀ op ∈ ([Op.AddClip ⟨1, 0, 0⟩, Op.GetFrame 1, Op.Width 640] : List (Op Int)),
      op ≠ Op.Open) ∧
    (∃ t, run (fun _ n => Except.ok ⟨n, [], []⟩) UnexpectedHandler.terminate
        (Timeline.new 640 480 ⟨24, 1⟩ 44100 2 : Timeline Int)
        [Op.AddClip ⟨1, 0, 0⟩, Op.GetFrame 1, Op.Width 640] = some t ∧
      GetFrame (GetFrame_body (fun _ n => Except.ok ⟨n, [], []⟩)) UnexpectedHandler.terminate
        t 5 = (Outcome.thrown Exception.ReaderClosed, t)) ∧
    (∃ t, run (fun _ n => Except.ok ⟨n, [], []⟩) UnexpectedHandler.terminate
        (Timeline.new 640 480 ⟨24, 1⟩ 44100 2 : Timeline Int).Open.Close
        [Op.AddClip ⟨1, 0, 0⟩, Op.GetFrame 1, Op.Width 640] = some t ∧
      GetFrame (GetFrame_body (fun _ n => Except.ok ⟨n, [], []⟩)) UnexpectedHandler.terminate
        t 5 = (Outcome.thrown Exception.ReaderClosed, t)) :=
  have hops : ∀ op ∈ ([Op.AddClip ⟨1, 0, 0⟩, Op.GetFrame 1, Op.Width 640] : List (Op Int)),
      op ≠ Op.Open := by simp
  ⟨hops,
    (GetFrame_not_open_throws_ReaderClosed (fun _ n => Except.ok ⟨n, [], []⟩)
      UnexpectedHandler.terminate [Op.AddClip ⟨1, 0, 0⟩, Op.GetFrame 1, Op.Width 640] 5 hops).1
      640 480 ⟨24, 1⟩ 44100 2,
    (GetFrame_not_open_throws_ReaderClosed (fun _ n => Except.ok ⟨n, [], []⟩)
      UnexpectedHandler.terminate [Op.AddClip ⟨1, 0, 0⟩, Op.GetFrame 1, Op.Width 640] 5 hops).2
      (Timeline.new 640 480 ⟨24, 1⟩ 44100 2 : Timeline Int).Open⟩

/-! ## Theorems: the exception specification of `GetFrame` -/

/-- C7 (counterexample): on an open timeline with an empty cache the collaborators fail with
a clip decode failure, which the body of `GetFrame` raises.  Under `throw(ReaderClosed)`
and the default `std::unexpected` handler the call ends in `std::terminate`: the decode
failure is not delivered to the caller. -/
theorem GetFrame_decode_failure_not_delivered :
    (GetFrame_body (fun _ _ => Except.error Exception.DecodeFailure)
        (Timeline.new 640 480 ⟨24, 1⟩ 44100 2 : Timeline Int).Open 1).1 =
      Outcome.thrown Exception.DecodeFailure ∧
    (GetFrame (GetFrame_body (fun _ _ => Except.error Exception.DecodeFailure))
        UnexpectedHandler.terminate
        (Timeline.new 640 480 ⟨24, 1⟩ 44100 2 : Timeline Int).Open 1).1 = Outcome.terminated ∧
    ¬ (GetFrame (GetFrame_body (fun _ _ => Except.error Exception.DecodeFailure))
        UnexpectedHandler.terminate
        (Timeline.new 640 480 ⟨24, 1⟩ 44100 2 : Timeline Int).Open 1).1 =
      Outcome.thrown Exception.DecodeFailure := by
  decide

/-- C7 (amended): under the exception specification `throw(ReaderClosed)` of `GetFrame`, an
error raised inside `GetFrame` is delivered to the caller as that error exactly when it is
`ReaderClosed`.  A non-`ReaderClosed` error is never delivered: the call ends in
`std::terminate` (always so with the default `std::unexpected` handler), or the caller
receives a `ReaderClosed` thrown by the installed handler. -/
theorem GetFrame_delivers_only_ReaderClosed {P : Type}
    (body : Timeline P → Int → Outcome Frame × Timeline P) (handler : UnexpectedHandler)
    (t : Timeline P) (requested_frame : Int) (e : Exception)
    (hraised : (body t requested_frame).1 = Outcome.thrown e) :
    (e = Exception.ReaderClosed →
      (GetFrame body handler t requested_frame).1 = Outcome.thrown e) ∧
    (e ≠ Exception.ReaderClosed →
      (GetFrame body handler t requested_frame).1 ≠ Outcome.thrown e ∧
      ((GetFrame body handler t requested_frame).1 = Outcome.terminated ∨
        (GetFrame body handler t requested_frame).1 = Outcome.thrown Exception.ReaderClosed) ∧
      (handler = UnexpectedHandler.terminate →
        (GetFrame body handler t requested_frame).1 = Outcome.terminated)) := by
  refine ⟨?_, ?_⟩
  · intro he
    simp [GetFrame, hraised, exceptionSpecification, he]
  · intro hne
    cases handler with
    | terminate =>
      simp [GetFrame, hraised, exceptionSpecification, hne]
    | throws e2 =>
      by_cases h2 : e2 = Exception.ReaderClosed
      · simp [GetFrame, hraised, exceptionSpecification, hne, h2]
        exact fun h => hne h.symm
      · simp [GetFrame, hraised, exceptionSpecification, hne, h2]

theorem GetFrame_delivers_only_ReaderClosed_witness :
    (GetFrame_body (fun _ _ => Except.error Exception.ResourceExhaustion)
        (Timeline.new 1280 720 ⟨30, 1⟩ 48000 2 : Timeline Int).Open 7).1 =
      Outcome.thrown Exception.ResourceExhaustion ∧
    (GetFrame (GetFrame_body (fun _ _ => Except.error Exception.ResourceExhaustion))
        (UnexpectedHandler.throws Exception.ReaderClosed)
        (Timeline.new 1280 720 ⟨30, 1⟩ 48000 2 : Timeline Int).Open 7).1 ≠
      Outcome.thrown Exception.ResourceExhaustion ∧
    (GetFrame (GetFrame_body (fun _ _ => Except.error Exception.ResourceExhaustion))
        (UnexpectedHandler.throws Exception.ReaderClosed)
        (Timeline.new 1280 720 ⟨30, 1⟩ 48000 2 : Timeline Int).Open 7).1 =
      Outcome.thrown Exception.ReaderClosed :=
  have hraised : (GetFrame_body (fun _ _ => Except.error Exception.ResourceExhaustion)
      (Timeline.new 1280 720 ⟨30, 1⟩ 48000 2 : Timeline Int).Open 7).1 =
      Outcome.thrown Exception.ResourceExhaustion := by decide
  ⟨hraised,
    ((GetFrame_delivers_only_ReaderClosed
      (GetFrame_body (fun _ _ => Except.error Exception.ResourceExhaustion))
      (UnexpectedHandler.throws Exception.ReaderClosed)
      (Timeline.new 1280 720 ⟨30, 1⟩ 48000 2 : Timeline Int).Open 7
      Exception.ResourceExhaustion hraised).2 (by decide)).1,
    by decide⟩

end openshot
